import Mathlib

/-!
Verification development for a command-line Pixela habit-tracker client
(`src/main.py`).  The client translates CLI invocations into single HTTP
requests against `https://pixe.la/v1/users`.  We shallowly embed the
configuration resolution, the date validation based on Python
`datetime.strptime(date_str, "%Y%m%d")`, the request construction of the
five operations, and the error translation of the `api_call` gateway.
-/

namespace HabitTracker

/-! ### Characters and digits -/

/-- Numeric value of a decimal digit character (Python `int` of the char;
only meaningful when the char is a digit). -/
def digitVal (c : Char) : Nat := c.toNat - 48

/-- The regex digit class: we model it as the ASCII digits 0-9
(codepoints 48-57). -/
def isDig (c : Char) : Bool := 48 ≤ c.toNat && c.toNat ≤ 57

/-- The regex class `[1-9]` (codepoints 49-57). -/
def isDig19 (c : Char) : Bool := 49 ≤ c.toNat && c.toNat ≤ 57

/-- The decimal digit character for a value below ten. -/
def decDigit : Nat → Char
  | 0 => '0' | 1 => '1' | 2 => '2' | 3 => '3' | 4 => '4'
  | 5 => '5' | 6 => '6' | 7 => '7' | 8 => '8' | _ => '9'

/-! ### Python `datetime.strptime(s, "%Y%m%d")`

CPython `_strptime` compiles the format to the regex
`(?P<Y>\d\d\d\d)(?P<m>1[0-2]|0[1-9]|[1-9])(?P<d>3[01]|[12]\d|0[1-9]|[1-9])`,
matches it at the start of the string with backtracking, raises
`ValueError` when the match does not consume the whole string
("unconverted data remains"), and finally constructs a `datetime`,
which raises `ValueError` unless `MINYEAR <= year` and
`1 <= day <= days_in_month(year, month)`.  Note the month and day
groups accept one OR two digits, so some 6- and 7-character strings
parse successfully. -/

/-- Day group `3[01]|[12]\d|0[1-9]|[1-9]`: branches tried in regex
alternation order, first success wins, returns value and rest. -/
def dayMatch : List Char → Option (Nat × List Char)
  | c1 :: c2 :: rest =>
    if c1 = '3' ∧ (c2 = '0' ∨ c2 = '1') then some (30 + digitVal c2, rest)
    else if (c1 = '1' ∨ c1 = '2') ∧ isDig c2 then
      some (10 * digitVal c1 + digitVal c2, rest)
    else if c1 = '0' ∧ isDig19 c2 then some (digitVal c2, rest)
    else if isDig19 c1 then some (digitVal c1, c2 :: rest)
    else none
  | [c1] => if isDig19 c1 then some (digitVal c1, []) else none
  | [] => none

/-- Month group `1[0-2]|0[1-9]|[1-9]` followed by the day group, with the
regex backtracking: if the two-character month branch `1[0-2]` matches but
the day group then fails, the engine retries with the one-character month
branch `[1-9]`. -/
def monthDayMatch : List Char → Option (Nat × Nat × List Char)
  | c1 :: c2 :: rest =>
    if c1 = '1' ∧ (c2 = '0' ∨ c2 = '1' ∨ c2 = '2') then
      match dayMatch rest with
      | some (d, l) => some (10 + digitVal c2, d, l)
      | none =>
        match dayMatch (c2 :: rest) with
        | some (d, l) => some (1, d, l)
        | none => none
    else if c1 = '0' ∧ isDig19 c2 then
      (dayMatch rest).map (fun p => (digitVal c2, p.1, p.2))
    else if isDig19 c1 then
      (dayMatch (c2 :: rest)).map (fun p => (digitVal c1, p.1, p.2))
    else none
  | _ => none

/-- Proleptic Gregorian leap year, as in Python `datetime`. -/
def isLeap (y : Nat) : Bool := y % 4 = 0 ∧ (y % 100 ≠ 0 ∨ y % 400 = 0)

/-- Days in a month, as in Python `datetime`. -/
def daysInMonth (y m : Nat) : Nat :=
  if m = 2 then (if isLeap y then 29 else 28)
  else if m = 4 ∨ m = 6 ∨ m = 9 ∨ m = 11 then 30
  else 31

/-- `datetime.strptime(s, "%Y%m%d")` as the triple year, month, day;
`none` models the `ValueError` that the operations catch. -/
def strptimeYMD (s : String) : Option (Nat × Nat × Nat) :=
  match s.data with
  | c1 :: c2 :: c3 :: c4 :: rest =>
    if isDig c1 ∧ isDig c2 ∧ isDig c3 ∧ isDig c4 then
      match monthDayMatch rest with
      | some (m, d, leftover) =>
        if leftover = [] then
          let y := 1000 * digitVal c1 + 100 * digitVal c2 +
            10 * digitVal c3 + digitVal c4
          if 1 ≤ y ∧ 1 ≤ d ∧ d ≤ daysInMonth y m then some (y, m, d)
          else none
        else none
      | none => none
    else none
  | _ => none

/-! ### `dt.strftime("%Y%m%d")`

On the reference platform (CPython delegating to the C library), `%m` and
`%d` are zero-padded to two digits, while `%Y` renders the year as a plain
decimal number without padding: year 999 renders as "999", not "0999". -/

/-- Two-digit zero-padded decimal rendering (for values below 100). -/
def pad2 (n : Nat) : String := String.mk [decDigit (n / 10 % 10), decDigit (n % 10)]

/-- Four-digit zero-padded decimal rendering (for values below 10000). -/
def pad4 (n : Nat) : String :=
  String.mk [decDigit (n / 1000 % 10), decDigit (n / 100 % 10),
    decDigit (n / 10 % 10), decDigit (n % 10)]

/-- Decimal digits, least significant first, with explicit fuel (the fuel
only needs to be at least the digit count; callers pass the number itself). -/
def decDigitsRevAux : Nat → Nat → List Char
  | 0, _ => []
  | fuel + 1, n => if n = 0 then [] else decDigit (n % 10) :: decDigitsRevAux fuel (n / 10)

/-- Decimal digits of a positive number, least significant first. -/
def decDigitsRev (n : Nat) : List Char := decDigitsRevAux n n

/-- Unpadded decimal rendering of a natural number (C `strftime` `%Y`). -/
def natDecimal (n : Nat) : String :=
  if n = 0 then "0" else String.mk (decDigitsRev n).reverse

/-- `dt.strftime("%Y%m%d")`: unpadded year, two-digit month and day. -/
def formatYMD (y m d : Nat) : String := natDecimal y ++ pad2 m ++ pad2 d

/-! ### Configuration (module constants from environment variables)

The process environment at startup: `os.getenv` returns `none` for an
unset variable.  `USERNAME = os.getenv("USERNAME")`,
`TOKEN = os.getenv("TOKEN")`, `GRAPH_ID = os.getenv("GRAPH_ID", "graph1")`. -/

structure Env where
  username : Option String
  token : Option String
  graphIdEnv : Option String

def PIXELA_ENDPOINT : String := "https://pixe.la/v1/users"

/-- Module constant `GRAPH_ID`: the env variable with default "graph1". -/
def GRAPH_ID (e : Env) : String := e.graphIdEnv.getD "graph1"

/-- Python truthiness of an `os.getenv` result: `None` and `""` are falsy. -/
def envTruthy : Option String → Bool
  | none => false
  | some s => s ≠ ""

/-- Module constant `HEADERS`: the auth header when `TOKEN` is truthy. -/
def HEADERS (e : Env) : List (String × String) :=
  if envTruthy e.token then [("X-USER-TOKEN", e.token.getD "")] else []

def HTTP_TIMEOUT : Nat := 15

def USER_AGENT : List (String × String) :=
  [("User-Agent", "PixelaHabitTracker/1.0 (+github.com/DEX-01-CODER)")]

/-- `os.getenv` for the three variables the program reads. -/
def getenv (e : Env) : String → Option String
  | "USERNAME" => e.username
  | "TOKEN" => e.token
  | "GRAPH_ID" => e.graphIdEnv
  | _ => none

/-- Whitespace as stripped by Python `str.strip()`; we model the ASCII
whitespace characters. -/
def isSpaceChar (c : Char) : Bool :=
  c = ' ' ∨ c = '\t' ∨ c = '\n' ∨ c = '\r' ∨ c = '\x0b' ∨ c = '\x0c'

/-- Python `str.strip()`: drop whitespace from both ends. -/
def pyStrip (s : String) : String :=
  String.mk (((s.data.dropWhile isSpaceChar).reverse.dropWhile isSpaceChar).reverse)

def gidRequiredMsg : String :=
  "GRAPH_ID is required (set in .env or pass --graph <id>)"

/-- `resolve_graph_id(override)`: `(override or GRAPH_ID)` picks the
override when it is a non-empty string, else the module constant; the
result is stripped and must be non-empty, else `SystemExit`. -/
def resolve_graph_id (e : Env) (override : Option String) : Except String String :=
  let base : String :=
    match override with
    | some s => if s = "" then GRAPH_ID e else s
    | none => GRAPH_ID e
  if base = "" then Except.error gidRequiredMsg
  else if pyStrip base = "" then Except.error gidRequiredMsg
  else Except.ok (pyStrip base)

/-- The keys among `keys` whose `os.getenv` value is falsy. -/
def missingKeys (e : Env) (keys : List String) : List String :=
  keys.filter (fun k => !envTruthy (getenv e k))

def missingEnvMsg (missing : List String) : String :=
  "Missing required environment variables: " ++ String.intercalate ", " missing ++
    "\nCreate a .env file with at least: USERNAME, TOKEN, GRAPH_ID"

/-- `require_env(*keys)`: `some msg` models the `SystemExit` raised when
some keys are missing; `none` means the check passed. -/
def require_env (e : Env) (keys : List String) : Option String :=
  if missingKeys e keys = [] then none
  else some (missingEnvMsg (missingKeys e keys))

/-! ### API gateway `api_call` -/

/-- An HTTP response as the gateway observes it: status code, the reason
phrase (used in the `requests.HTTPError` string), the raw body text, and
`some rendering` when `resp.json()` succeeds (the `str()` of the parsed
body), else `none`. -/
structure HttpResp where
  status : Nat
  reason : String
  text : String
  jsonDetail : Option String

/-- What the single `requests.request` call produces: a response, or a
transport-level `requests.RequestException` with no response. -/
inductive Transport where
  | ok (r : HttpResp)
  | netError (desc : String)

/-- The HTTP request the gateway hands to `requests.request`. -/
structure Request where
  method : String
  url : String
  headers : List (String × String)
  jsonBody : Option (List (String × String))
  timeout : Nat

/-- Python dict merge of two keyed lists: entries of `base` keep their
position unless `overrides` has the same key, in which case the override
value wins; fresh override keys follow. -/
def dictMerge (base overrides : List (String × String)) : List (String × String) :=
  base.filter (fun p => !overrides.any (fun q => q.1 = p.1)) ++ overrides

/-- Lookup of a header value by key. -/
def lookupKey (k : String) (l : List (String × String)) : Option String :=
  (l.find? (fun p => p.1 = k)).map (fun p => p.2)

/-- The string of the `requests.HTTPError` raised by `raise_for_status`. -/
def httpErrorStr (status : Nat) (reason url : String) : String :=
  if status < 500 then
    toString status ++ " Client Error: " ++ reason ++ " for url: " ++ url
  else
    toString status ++ " Server Error: " ++ reason ++ " for url: " ++ url

/-- The `SystemExit` message built on an HTTP error status. -/
def httpErrorMsg (status : Nat) (detail reason url : String) : String :=
  "HTTP error " ++ toString status ++ ": " ++ detail ++ "\n" ++
    httpErrorStr status reason url

/-- `api_call(method, url, **kwargs)`: sets the default timeout, merges
the caller headers over `USER_AGENT`, issues the single request, and
translates error statuses (400-599, the ones `raise_for_status` raises
for) and transport failures into `SystemExit` messages.  Returns the
request it issued together with the outcome. -/
def api_call (method url : String) (headers : List (String × String))
    (jsonBody : Option (List (String × String))) (timeoutArg : Option Nat)
    (t : Transport) : Request × Except String HttpResp :=
  let timeout := timeoutArg.getD HTTP_TIMEOUT
  let merged := dictMerge USER_AGENT headers
  let req : Request := ⟨method, url, merged, jsonBody, timeout⟩
  match t with
  | .ok r =>
    if 400 ≤ r.status ∧ r.status < 600 then
      (req, .error (httpErrorMsg r.status (r.jsonDetail.getD r.text) r.reason url))
    else (req, .ok r)
  | .netError d => (req, .error ("Network error: " ++ d))

/-! ### Operations -/

/-- How an operation ends: `SystemExit` with a message, or normal
completion having printed the given lines. -/
inductive OpOutcome where
  | fatalExit (msg : String)
  | printed (lines : List String)

/-- The requests issued over the operation (in order) and its outcome. -/
abbrev OpResult := List Request × OpOutcome

def dateFormatErrMsg : String := "date must be in YYYYMMDD format (e.g., 20251021)"

/-- `create_user()`: requires USERNAME and TOKEN, POSTs the signup payload
to the endpoint root with no extra headers, prints the response text. -/
def create_user (e : Env) (t : Transport) : OpResult :=
  match require_env e ["USERNAME", "TOKEN"] with
  | some msg => ([], .fatalExit msg)
  | none =>
    let payload := [("token", e.token.getD ""), ("username", e.username.getD ""),
      ("agreeTermsOfService", "yes"), ("notMinor", "yes")]
    let ac := api_call "POST" PIXELA_ENDPOINT [] (some payload) none t
    match ac.2 with
    | .ok r => ([ac.1], .printed [r.text])
    | .error msg => ([ac.1], .fatalExit msg)

/-- `create_graph(...)`: requires all three variables, resolves the graph
id, POSTs the graph spec, prints the response text and a viewer URL. -/
def create_graph (e : Env) (name unit gtype color : String)
    (graph_id : Option String) (t : Transport) : OpResult :=
  match require_env e ["USERNAME", "TOKEN", "GRAPH_ID"] with
  | some msg => ([], .fatalExit msg)
  | none =>
    match resolve_graph_id e graph_id with
    | .error msg => ([], .fatalExit msg)
    | .ok gid =>
      let uname := e.username.getD ""
      let url := PIXELA_ENDPOINT ++ "/" ++ uname ++ "/graphs"
      let payload := [("id", gid), ("name", name), ("unit", unit),
        ("type", gtype), ("color", color)]
      let ac := api_call "POST" url (HEADERS e) (some payload) none t
      match ac.2 with
      | .ok r => ([ac.1], .printed [r.text,
          "Graph URL: https://pixe.la/v1/users/" ++ uname ++ "/graphs/" ++
            gid ++ ".html"])
      | .error msg => ([ac.1], .fatalExit msg)

/-- `add_pixel(quantity, date_str, graph_id)`: requires config, resolves
the graph id, parses the explicit date when `if date_str:` is truthy —
`None` and the empty string are falsy, so both fall back to the current
date `now` — then POSTs `date` and `quantity` and prints the response
text. -/
def add_pixel (e : Env) (quantity : String) (date_str : Option String)
    (graph_id : Option String) (now : Nat × Nat × Nat) (t : Transport) : OpResult :=
  match require_env e ["USERNAME", "TOKEN", "GRAPH_ID"] with
  | some msg => ([], .fatalExit msg)
  | none =>
    match resolve_graph_id e graph_id with
    | .error msg => ([], .fatalExit msg)
    | .ok gid =>
      let dateParsed : Option (Nat × Nat × Nat) :=
        match date_str with
        | some s => if s = "" then some now else strptimeYMD s
        | none => some now
      match dateParsed with
      | none => ([], .fatalExit dateFormatErrMsg)
      | some (y, m, d) =>
        let payload := [("date", formatYMD y m d), ("quantity", quantity)]
        let url := PIXELA_ENDPOINT ++ "/" ++ e.username.getD "" ++ "/graphs/" ++ gid
        let ac := api_call "POST" url (HEADERS e) (some payload) none t
        match ac.2 with
        | .ok r => ([ac.1], .printed [r.text])
        | .error msg => ([ac.1], .fatalExit msg)

/-- `update_pixel(quantity, date_str, graph_id)`: validates the date,
PUTs `quantity` to the pixel URL containing the raw date string. -/
def update_pixel (e : Env) (quantity date_str : String)
    (graph_id : Option String) (t : Transport) : OpResult :=
  match require_env e ["USERNAME", "TOKEN", "GRAPH_ID"] with
  | some msg => ([], .fatalExit msg)
  | none =>
    match resolve_graph_id e graph_id with
    | .error msg => ([], .fatalExit msg)
    | .ok gid =>
      match strptimeYMD date_str with
      | none => ([], .fatalExit dateFormatErrMsg)
      | some _ =>
        let payload := [("quantity", quantity)]
        let url := PIXELA_ENDPOINT ++ "/" ++ e.username.getD "" ++ "/graphs/" ++
          gid ++ "/" ++ date_str
        let ac := api_call "PUT" url (HEADERS e) (some payload) none t
        match ac.2 with
        | .ok r => ([ac.1], .printed [r.text])
        | .error msg => ([ac.1], .fatalExit msg)

/-- `delete_pixel(date_str, graph_id)`: validates the date, DELETEs the
pixel URL containing the raw date string, with no body. -/
def delete_pixel (e : Env) (date_str : String)
    (graph_id : Option String) (t : Transport) : OpResult :=
  match require_env e ["USERNAME", "TOKEN", "GRAPH_ID"] with
  | some msg => ([], .fatalExit msg)
  | none =>
    match resolve_graph_id e graph_id with
    | .error msg => ([], .fatalExit msg)
    | .ok gid =>
      match strptimeYMD date_str with
      | none => ([], .fatalExit dateFormatErrMsg)
      | some _ =>
        let url := PIXELA_ENDPOINT ++ "/" ++ e.username.getD "" ++ "/graphs/" ++
          gid ++ "/" ++ date_str
        let ac := api_call "DELETE" url (HEADERS e) none none t
        match ac.2 with
        | .ok r => ([ac.1], .printed [r.text])
        | .error msg => ([ac.1], .fatalExit msg)

/-! ### Spec-side predicate -/

/-- The specification speaks of "valid 8-digit date strings representing
real calendar dates": exactly eight ASCII digits whose year part is at
least 1, whose month part is 1-12 and whose day part is a real day of
that month.  This definition follows the spec wording (for comparison
with the code-side `strptimeYMD`), not the code. -/
def specValid8Date (s : String) : Bool :=
  match s.data with
  | [a, b, c, d, e, f, g, h] =>
    isDig a && isDig b && isDig c && isDig d &&
    isDig e && isDig f && isDig g && isDig h &&
    (1 ≤ 1000 * digitVal a + 100 * digitVal b + 10 * digitVal c + digitVal d) &&
    (1 ≤ 10 * digitVal e + digitVal f) &&
    (10 * digitVal e + digitVal f ≤ 12) &&
    (1 ≤ 10 * digitVal g + digitVal h) &&
    (10 * digitVal g + digitVal h ≤
      daysInMonth (1000 * digitVal a + 100 * digitVal b + 10 * digitVal c + digitVal d)
        (10 * digitVal e + digitVal f))
  | _ => false

/-! ### Helper lemmas: characters and digits -/

theorem char_eq_of_toNat_eq {a b : Char} (h : a.toNat = b.toNat) : a = b :=
  Char.eq_of_val_eq (UInt32.ext h)

theorem isDig_iff {c : Char} : isDig c = true ↔ 48 ≤ c.toNat ∧ c.toNat ≤ 57 := by
  simp [isDig]

theorem isDig19_iff {c : Char} : isDig19 c = true ↔ 49 ≤ c.toNat ∧ c.toNat ≤ 57 := by
  simp [isDig19]

theorem isDig_of_isDig19 {c : Char} (h : isDig19 c = true) : isDig c = true := by
  rw [isDig19_iff] at h
  rw [isDig_iff]
  omega

theorem digitVal_le {c : Char} (h : isDig c = true) : digitVal c ≤ 9 := by
  rw [isDig_iff] at h
  unfold digitVal
  omega

theorem eq_decDigit {c : Char} (k : Nat) (hk : k ≤ 9) (h : c.toNat = 48 + k) :
    decDigit k = c := by
  interval_cases k <;> (apply char_eq_of_toNat_eq; rw [h]; decide)

theorem decDigit_digitVal {c : Char} (h : isDig c = true) :
    decDigit (digitVal c) = c := by
  rw [isDig_iff] at h
  exact eq_decDigit (digitVal c) (by unfold digitVal; omega) (by unfold digitVal; omega)

/-! ### Helper lemmas: header merge and the issued request -/

theorem api_call_fst (m u : String) (hs : List (String × String))
    (b : Option (List (String × String))) (tA : Option Nat) (t : Transport) :
    (api_call m u hs b tA t).1 =
      ⟨m, u, dictMerge USER_AGENT hs, b, tA.getD HTTP_TIMEOUT⟩ := by
  cases t with
  | ok r =>
    simp only [api_call]
    split <;> rfl
  | netError d => rfl

theorem lookupKey_nil (k : String) : lookupKey k [] = none := rfl

theorem lookupKey_cons (k : String) (p : String × String) (l : List (String × String)) :
    lookupKey k (p :: l) = if p.1 = k then some p.2 else lookupKey k l := by
  by_cases h : p.1 = k <;> simp [lookupKey, List.find?, h]

theorem lookupKey_eq_none {k : String} {l : List (String × String)} :
    lookupKey k l = none ↔ ∀ p ∈ l, p.1 ≠ k := by
  simp [lookupKey, List.find?_eq_none]

theorem lookupKey_dictMerge_single (k : String) (a : String × String)
    (ov : List (String × String)) :
    lookupKey k (dictMerge [a] ov) =
      match lookupKey k ov with
      | some v => some v
      | none => lookupKey k [a] := by
  by_cases hany : ov.any (fun q => q.1 = a.1) = true
  · have hmerge : dictMerge [a] ov = ov := by
      simp [dictMerge, List.filter, hany]
    rw [hmerge]
    cases h : lookupKey k ov with
    | some v => rfl
    | none =>
      by_cases hk : a.1 = k
      · rw [List.any_eq_true] at hany
        obtain ⟨q, hq, hq1⟩ := hany
        rw [lookupKey_eq_none] at h
        exact absurd (by simp at hq1; rw [hq1, hk]) (h q hq)
      · simp [lookupKey_cons, hk, lookupKey_nil]
  · have hany' : ov.any (fun q => q.1 = a.1) = false := Bool.eq_false_iff.mpr hany
    have hmerge : dictMerge [a] ov = a :: ov := by
      simp [dictMerge, List.filter, hany']
    rw [hmerge, lookupKey_cons]
    by_cases hk : a.1 = k
    · have hov : lookupKey k ov = none := by
        rw [lookupKey_eq_none]
        intro p hp hpk
        rw [List.any_eq_true] at hany
        exact absurd ⟨p, hp, by simp [hpk, hk]⟩ hany
      simp [hk, hov, lookupKey_cons]
    · simp only [hk, if_false]
      cases h : lookupKey k ov <;> simp [h, lookupKey_cons, hk, lookupKey_nil]

/-! ### Helper lemmas: what a successful date parse implies -/

theorem dayMatch_sound {cs : List Char} {d : Nat} {l : List Char}
    (h : dayMatch cs = some (d, l)) :
    (∃ c1 c2, cs = c1 :: c2 :: l ∧ isDig c1 = true ∧ isDig c2 = true) ∨
    (∃ c1, cs = c1 :: l ∧ isDig c1 = true) := by
  match cs with
  | [] => simp [dayMatch] at h
  | [c1] =>
    simp only [dayMatch] at h
    split at h
    · rename_i hc
      simp only [Option.some.injEq, Prod.mk.injEq] at h
      right
      exact ⟨c1, by rw [h.2], isDig_of_isDig19 hc⟩
    · simp at h
  | c1 :: c2 :: rest =>
    simp only [dayMatch] at h
    split at h
    · rename_i hc
      simp only [Option.some.injEq, Prod.mk.injEq] at h
      left
      refine ⟨c1, c2, by rw [h.2], by rw [hc.1]; decide, ?_⟩
      rcases hc.2 with h2 | h2 <;> (rw [h2]; decide)
    · split at h
      · rename_i hc
        simp only [Option.some.injEq, Prod.mk.injEq] at h
        left
        refine ⟨c1, c2, by rw [h.2], ?_, hc.2⟩
        rcases hc.1 with h1 | h1 <;> (rw [h1]; decide)
      · split at h
        · rename_i hc
          simp only [Option.some.injEq, Prod.mk.injEq] at h
          left
          exact ⟨c1, c2, by rw [h.2], by rw [hc.1]; decide, isDig_of_isDig19 hc.2⟩
        · split at h
          · rename_i hc
            simp only [Option.some.injEq, Prod.mk.injEq] at h
            right
            exact ⟨c1, by rw [h.2], isDig_of_isDig19 hc⟩
          · simp at h

theorem monthDayMatch_sound {cs : List Char} {m d : Nat} {l : List Char}
    (h : monthDayMatch cs = some (m, d, l)) :
    ∃ pre, cs = pre ++ l ∧ 2 ≤ pre.length ∧ pre.length ≤ 4 ∧
      ∀ c ∈ pre, isDig c = true := by
  match cs with
  | [] => simp [monthDayMatch] at h
  | [c1] => simp [monthDayMatch] at h
  | c1 :: c2 :: rest =>
    simp only [monthDayMatch] at h
    split at h
    · rename_i hc
      have hd1 : isDig c1 = true := by rw [hc.1]; decide
      have hd2 : isDig c2 = true := by
        rcases hc.2 with h2 | h2 | h2 <;> (rw [h2]; decide)
      split at h
      · rename_i dm d' l' hday
        simp only [Option.some.injEq, Prod.mk.injEq] at h
        obtain ⟨-, -, hl⟩ := h
        subst hl
        rcases dayMatch_sound hday with ⟨a, b, hab, ha, hb⟩ | ⟨a, hab, ha⟩
        · exact ⟨[c1, c2, a, b], by simp [hab], by simp, by simp,
            by intro c hc'; simp at hc'; rcases hc' with rfl | rfl | rfl | rfl <;>
              assumption⟩
        · exact ⟨[c1, c2, a], by simp [hab], by simp, by simp,
            by intro c hc'; simp at hc'; rcases hc' with rfl | rfl | rfl <;>
              assumption⟩
      · split at h
        · rename_i dm' d' l' hday
          simp only [Option.some.injEq, Prod.mk.injEq] at h
          obtain ⟨-, -, hl⟩ := h
          subst hl
          rcases dayMatch_sound hday with ⟨a, b, hab, ha, hb⟩ | ⟨a, hab, ha⟩
          · injection hab with hx hy
            subst hx
            exact ⟨[c1, c2, b], by simp [hy], by simp, by simp,
              by intro c hc'; simp at hc'; rcases hc' with rfl | rfl | rfl <;>
                assumption⟩
          · injection hab with hx hy
            subst hx
            exact ⟨[c1, c2], by simp [hy], by simp, by simp,
              by intro c hc'; simp at hc'; rcases hc' with rfl | rfl <;>
                assumption⟩
        · simp at h
    · split at h
      · rename_i hc
        have hd1 : isDig c1 = true := by rw [hc.1]; decide
        have hd2 : isDig c2 = true := isDig_of_isDig19 hc.2
        simp only [Option.map_eq_some'] at h
        obtain ⟨⟨d', l'⟩, hday, h⟩ := h
        simp only [Prod.mk.injEq] at h
        obtain ⟨-, -, hl⟩ := h
        subst hl
        rcases dayMatch_sound hday with ⟨a, b, hab, ha, hb⟩ | ⟨a, hab, ha⟩
        · exact ⟨[c1, c2, a, b], by simp [hab], by simp, by simp,
            by intro c hc'; simp at hc'; rcases hc' with rfl | rfl | rfl | rfl <;>
              assumption⟩
        · exact ⟨[c1, c2, a], by simp [hab], by simp, by simp,
            by intro c hc'; simp at hc'; rcases hc' with rfl | rfl | rfl <;>
              assumption⟩
      · split at h
        · rename_i hc
          have hd1 : isDig c1 = true := isDig_of_isDig19 hc
          simp only [Option.map_eq_some'] at h
          obtain ⟨⟨d', l'⟩, hday, h⟩ := h
          simp only [Prod.mk.injEq] at h
          obtain ⟨-, -, hl⟩ := h
          subst hl
          rcases dayMatch_sound hday with ⟨a, b, hab, ha, hb⟩ | ⟨a, hab, ha⟩
          · injection hab with hx hy
            subst hx
            exact ⟨[c1, c2, b], by simp [hy], by simp, by simp,
              by intro c hc'; simp at hc'; rcases hc' with rfl | rfl | rfl <;>
                assumption⟩
          · injection hab with hx hy
            subst hx
            exact ⟨[c1, c2], by simp [hy], by simp, by simp,
              by intro c hc'; simp at hc'; rcases hc' with rfl | rfl <;>
                assumption⟩
        · simp at h

/-- A successful parse forces the input to be 6 to 8 characters long and
all (ASCII) digits: the only slack the lenient format allows is a 1- or
2-digit month and day. -/
theorem strptimeYMD_sound {s : String} {v : Nat × Nat × Nat}
    (h : strptimeYMD s = some v) :
    6 ≤ s.length ∧ s.length ≤ 8 ∧ ∀ c ∈ s.data, isDig c = true := by
  obtain ⟨y, m, d⟩ := v
  unfold strptimeYMD at h
  split at h
  · rename_i c1 c2 c3 c4 rest heq
    split at h
    · rename_i hdig
      split at h
      · rename_i m' d' leftover hmd
        split at h
        · rename_i hleft
          subst hleft
          obtain ⟨pre, hpre, h2, h4, hdigits⟩ := monthDayMatch_sound hmd
          rw [List.append_nil] at hpre
          subst hpre
          have hlen : s.length = s.data.length := rfl
          constructor
          · rw [hlen, heq]; simp; omega
          constructor
          · rw [hlen, heq]; simp; omega
          · intro c hc
            rw [heq] at hc
            simp at hc
            rcases hc with rfl | rfl | rfl | rfl | hc
            · exact hdig.1
            · exact hdig.2.1
            · exact hdig.2.2.1
            · exact hdig.2.2.2
            · exact hdigits c hc
        · simp at h
      · simp at h
    · simp at h
  · simp at h

/-! ### Helper lemmas: the parse succeeds on zero-padded valid dates -/

theorem toNat_eq_of_isDig {c : Char} (h : isDig c = true) :
    c.toNat = 48 + digitVal c := by
  rw [isDig_iff] at h
  unfold digitVal
  omega

theorem dayMatch_two {g h : Char} {dy : Nat} (rest : List Char)
    (hg : isDig g = true) (hh : isDig h = true)
    (hval : dy = 10 * digitVal g + digitVal h) (h1 : 1 ≤ dy) (h31 : dy ≤ 31) :
    dayMatch (g :: h :: rest) = some (dy, rest) := by
  have hg9 := digitVal_le hg
  have hh9 := digitVal_le hh
  have hgt := toNat_eq_of_isDig hg
  have hht := toNat_eq_of_isDig hh
  have hcase : digitVal g = 0 ∨ digitVal g = 1 ∨ digitVal g = 2 ∨ digitVal g = 3 := by
    omega
  rcases hcase with hdg | hdg | hdg | hdg
  · have hgc : g = '0' := (eq_decDigit 0 (by norm_num) (by omega)).symm
    subst hgc
    have h19 : isDig19 h = true := by rw [isDig19_iff]; omega
    rw [show dy = digitVal h from by unfold digitVal at *; omega]
    simp [dayMatch, h19]
  · have hgc : g = '1' := (eq_decDigit 1 (by norm_num) (by omega)).symm
    subst hgc
    rw [show dy = 10 + digitVal h from by unfold digitVal at *; omega]
    simp [dayMatch, hh, digitVal]
  · have hgc : g = '2' := (eq_decDigit 2 (by norm_num) (by omega)).symm
    subst hgc
    rw [show dy = 20 + digitVal h from by unfold digitVal at *; omega]
    simp [dayMatch, hh, digitVal]
  · have hgc : g = '3' := (eq_decDigit 3 (by norm_num) (by omega)).symm
    subst hgc
    have hh1 : digitVal h = 0 ∨ digitVal h = 1 := by unfold digitVal at *; omega
    rcases hh1 with hdh | hdh
    · have hhc : h = '0' := (eq_decDigit 0 (by norm_num) (by omega)).symm
      subst hhc
      rw [show dy = 30 from by unfold digitVal at *; omega]
      simp [dayMatch, digitVal]
    · have hhc : h = '1' := (eq_decDigit 1 (by norm_num) (by omega)).symm
      subst hhc
      rw [show dy = 31 from by unfold digitVal at *; omega]
      simp [dayMatch, digitVal]

theorem monthDay_two {e f g h : Char} {mo dy : Nat}
    (he : isDig e = true) (hf : isDig f = true)
    (hg : isDig g = true) (hh : isDig h = true)
    (hmo : mo = 10 * digitVal e + digitVal f) (hmo1 : 1 ≤ mo) (hmo12 : mo ≤ 12)
    (hdy : dy = 10 * digitVal g + digitVal h) (hdy1 : 1 ≤ dy) (hdy31 : dy ≤ 31) :
    monthDayMatch [e, f, g, h] = some (mo, dy, []) := by
  have he9 := digitVal_le he
  have hf9 := digitVal_le hf
  have het := toNat_eq_of_isDig he
  have hft := toNat_eq_of_isDig hf
  have hday : dayMatch [g, h] = some (dy, []) := dayMatch_two [] hg hh hdy hdy1 hdy31
  have hcase : digitVal e = 0 ∨ digitVal e = 1 := by omega
  rcases hcase with hde | hde
  · have hec : e = '0' := (eq_decDigit 0 (by norm_num) (by omega)).symm
    subst hec
    have hf19 : isDig19 f = true := by
      rw [isDig19_iff]
      unfold digitVal at *
      omega
    rw [show mo = digitVal f from by unfold digitVal at *; omega]
    simp [monthDayMatch, hf19, hday]
  · have hec : e = '1' := (eq_decDigit 1 (by norm_num) (by omega)).symm
    subst hec
    have hf2 : digitVal f = 0 ∨ digitVal f = 1 ∨ digitVal f = 2 := by
      unfold digitVal at *
      omega
    rw [show mo = 10 + digitVal f from by unfold digitVal at *; omega]
    rcases hf2 with hdf | hdf | hdf
    · have hfc : f = '0' := (eq_decDigit 0 (by norm_num) (by omega)).symm
      subst hfc
      simp [monthDayMatch, hday, digitVal]
    · have hfc : f = '1' := (eq_decDigit 1 (by norm_num) (by omega)).symm
      subst hfc
      simp [monthDayMatch, hday, digitVal]
    · have hfc : f = '2' := (eq_decDigit 2 (by norm_num) (by omega)).symm
      subst hfc
      simp [monthDayMatch, hday, digitVal]

/-! ### Helper lemmas: strftime rendering -/

theorem decDigitsRevAux_zero (f : Nat) : decDigitsRevAux f 0 = [] := by
  cases f <;> simp [decDigitsRevAux]

theorem decDigitsRevAux_one {f n : Nat} (h1 : 1 ≤ n) (h9 : n ≤ 9) (hf : 1 ≤ f) :
    decDigitsRevAux f n = [decDigit n] := by
  cases f with
  | zero => omega
  | succ f' =>
    have hn : ¬ n = 0 := by omega
    have hd : n / 10 = 0 := by omega
    have hm : n % 10 = n := by omega
    simp [decDigitsRevAux, hn, hd, hm, decDigitsRevAux_zero]

theorem decDigitsRevAux_two {f n : Nat} (h1 : 10 ≤ n) (h9 : n ≤ 99) (hf : 2 ≤ f) :
    decDigitsRevAux f n = [decDigit (n % 10), decDigit (n / 10)] := by
  cases f with
  | zero => omega
  | succ f' =>
    have hn : ¬ n = 0 := by omega
    simp only [decDigitsRevAux, hn, if_false]
    rw [decDigitsRevAux_one (by omega) (by omega) (by omega)]

theorem decDigitsRevAux_three {f n : Nat} (h1 : 100 ≤ n) (h9 : n ≤ 999) (hf : 3 ≤ f) :
    decDigitsRevAux f n =
      [decDigit (n % 10), decDigit (n / 10 % 10), decDigit (n / 100)] := by
  cases f with
  | zero => omega
  | succ f' =>
    have hn : ¬ n = 0 := by omega
    simp only [decDigitsRevAux, hn, if_false]
    rw [decDigitsRevAux_two (by omega) (by omega) (by omega)]
    have : n / 10 / 10 = n / 100 := by omega
    rw [this]

theorem decDigitsRevAux_four {f n : Nat} (h1 : 1000 ≤ n) (h9 : n ≤ 9999) (hf : 4 ≤ f) :
    decDigitsRevAux f n =
      [decDigit (n % 10), decDigit (n / 10 % 10), decDigit (n / 100 % 10),
        decDigit (n / 1000)] := by
  cases f with
  | zero => omega
  | succ f' =>
    have hn : ¬ n = 0 := by omega
    simp only [decDigitsRevAux, hn, if_false]
    rw [decDigitsRevAux_three (by omega) (by omega) (by omega)]
    have h10 : n / 10 / 10 = n / 100 := by omega
    have h100 : n / 10 / 100 = n / 1000 := by omega
    have h10m : n / 10 / 10 % 10 = n / 100 % 10 := by rw [h10]
    rw [h10m, h100]

theorem natDecimal_four {a b c d : Char}
    (ha : isDig a = true) (hb : isDig b = true)
    (hc : isDig c = true) (hd : isDig d = true) (ha1 : 1 ≤ digitVal a) :
    natDecimal (1000 * digitVal a + 100 * digitVal b + 10 * digitVal c + digitVal d) =
      String.mk [a, b, c, d] := by
  have ha9 := digitVal_le ha
  have hb9 := digitVal_le hb
  have hc9 := digitVal_le hc
  have hd9 := digitVal_le hd
  set n := 1000 * digitVal a + 100 * digitVal b + 10 * digitVal c + digitVal d with hn
  have hn0 : ¬ n = 0 := by omega
  unfold natDecimal decDigitsRev
  rw [if_neg hn0, decDigitsRevAux_four (by omega) (by omega) (by omega)]
  have e1 : n % 10 = digitVal d := by omega
  have e2 : n / 10 % 10 = digitVal c := by omega
  have e3 : n / 100 % 10 = digitVal b := by omega
  have e4 : n / 1000 = digitVal a := by omega
  rw [e1, e2, e3, e4, decDigit_digitVal ha, decDigit_digitVal hb,
    decDigit_digitVal hc, decDigit_digitVal hd]
  rfl

theorem pad2_digits {e f : Char} (he : isDig e = true) (hf : isDig f = true) :
    pad2 (10 * digitVal e + digitVal f) = String.mk [e, f] := by
  have he9 := digitVal_le he
  have hf9 := digitVal_le hf
  unfold pad2
  have e1 : (10 * digitVal e + digitVal f) / 10 % 10 = digitVal e := by omega
  have e2 : (10 * digitVal e + digitVal f) % 10 = digitVal f := by omega
  rw [e1, e2, decDigit_digitVal he, decDigit_digitVal hf]

/-- On every spec-valid 8-digit date string the lenient parse succeeds,
and re-rendering with `strftime` reproduces the input exactly when the
year is at least 1000. -/
theorem strptimeYMD_valid {s : String} (hs : specValid8Date s = true) :
    ∃ y mo dy, strptimeYMD s = some (y, mo, dy) ∧
      (1000 ≤ y → formatYMD y mo dy = s) := by
  unfold specValid8Date at hs
  split at hs
  case h_2 => simp at hs
  case h_1 a b c d e f g h heq =>
    simp only [Bool.and_eq_true, decide_eq_true_eq] at hs
    obtain ⟨⟨⟨⟨⟨⟨⟨⟨⟨⟨⟨⟨ha, hb⟩, hc⟩, hd⟩, he⟩, hf⟩, hg⟩, hh⟩, hy1⟩, hmo1⟩,
      hmo12⟩, hdy1⟩, hdy31⟩ := hs
    refine ⟨1000 * digitVal a + 100 * digitVal b + 10 * digitVal c + digitVal d,
      10 * digitVal e + digitVal f, 10 * digitVal g + digitVal h, ?_, ?_⟩
    · have hdayle : 10 * digitVal g + digitVal h ≤ 31 := by
        calc 10 * digitVal g + digitVal h ≤ daysInMonth _ _ := hdy31
          _ ≤ 31 := by
            unfold daysInMonth
            split
            · split <;> omega
            · split <;> omega
      have hmd : monthDayMatch [e, f, g, h] =
          some (10 * digitVal e + digitVal f, 10 * digitVal g + digitVal h, []) :=
        monthDay_two he hf hg hh rfl hmo1 hmo12 rfl hdy1 hdayle
      unfold strptimeYMD
      rw [heq]
      simp [ha, hb, hc, hd, hmd, hy1, hdy1, hdy31]
    · intro hy1000
      have ha1 : 1 ≤ digitVal a := by
        have := digitVal_le hb
        have := digitVal_le hc
        have := digitVal_le hd
        omega
      unfold formatYMD
      rw [natDecimal_four ha hb hc hd ha1, pad2_digits he hf, pad2_digits hg hh]
      have : String.mk [a, b, c, d] ++ String.mk [e, f] ++ String.mk [g, h] =
          String.mk [a, b, c, d, e, f, g, h] := rfl
      rw [this, ← heq]

/-! ### Helper lemmas: gateway outcomes and operation runs -/

theorem api_call_snd_ok {r : HttpResp} (m u : String) (hs : List (String × String))
    (b : Option (List (String × String))) (tA : Option Nat)
    (hok : ¬(400 ≤ r.status ∧ r.status < 600)) :
    (api_call m u hs b tA (.ok r)).2 = .ok r := by
  simp [api_call, hok]

theorem api_call_snd_httpError {r : HttpResp} (m u : String)
    (hs : List (String × String)) (b : Option (List (String × String)))
    (tA : Option Nat) (h4 : 400 ≤ r.status) (h6 : r.status < 600) :
    (api_call m u hs b tA (.ok r)).2 =
      .error (httpErrorMsg r.status (r.jsonDetail.getD r.text) r.reason u) := by
  simp [api_call, h4, h6]

theorem api_call_snd_net (m u : String) (hs : List (String × String))
    (b : Option (List (String × String))) (tA : Option Nat) (d : String) :
    (api_call m u hs b tA (.netError d)).2 = .error ("Network error: " ++ d) := rfl

theorem add_pixel_eq (e : Env) (q s : String) (ov : Option String)
    (now : Nat × Nat × Nat) (t : Transport) {g : String} {y mo dy : Nat}
    (henv : require_env e ["USERNAME", "TOKEN", "GRAPH_ID"] = none)
    (hg : resolve_graph_id e ov = Except.ok g)
    (hd : strptimeYMD s = some (y, mo, dy)) :
    add_pixel e q (some s) ov now t =
      ([(api_call "POST" (PIXELA_ENDPOINT ++ "/" ++ e.username.getD "" ++ "/graphs/" ++ g)
          (HEADERS e) (some [("date", formatYMD y mo dy), ("quantity", q)]) none t).1],
       match (api_call "POST" (PIXELA_ENDPOINT ++ "/" ++ e.username.getD "" ++ "/graphs/" ++ g)
          (HEADERS e) (some [("date", formatYMD y mo dy), ("quantity", q)]) none t).2 with
       | .ok r => .printed [r.text]
       | .error msg => .fatalExit msg) := by
  have hs0 : s ≠ "" := by
    intro h0
    rw [h0] at hd
    have hnil : strptimeYMD "" = none := rfl
    rw [hnil] at hd
    exact Option.noConfusion hd
  simp only [add_pixel, henv, hg, hd, if_neg hs0]
  split <;> rfl

theorem add_pixel_today_eq (e : Env) (q : String) (ov : Option String)
    (now : Nat × Nat × Nat) (t : Transport) {g : String}
    (henv : require_env e ["USERNAME", "TOKEN", "GRAPH_ID"] = none)
    (hg : resolve_graph_id e ov = Except.ok g) :
    add_pixel e q none ov now t =
      ([(api_call "POST" (PIXELA_ENDPOINT ++ "/" ++ e.username.getD "" ++ "/graphs/" ++ g)
          (HEADERS e) (some [("date", formatYMD now.1 now.2.1 now.2.2), ("quantity", q)])
          none t).1],
       match (api_call "POST" (PIXELA_ENDPOINT ++ "/" ++ e.username.getD "" ++ "/graphs/" ++ g)
          (HEADERS e) (some [("date", formatYMD now.1 now.2.1 now.2.2), ("quantity", q)])
          none t).2 with
       | .ok r => .printed [r.text]
       | .error msg => .fatalExit msg) := by
  obtain ⟨y, mo, dy⟩ := now
  simp only [add_pixel, henv, hg]
  split <;> rfl

theorem update_pixel_eq (e : Env) (q s : String) (ov : Option String)
    (t : Transport) {g : String} {v : Nat × Nat × Nat}
    (henv : require_env e ["USERNAME", "TOKEN", "GRAPH_ID"] = none)
    (hg : resolve_graph_id e ov = Except.ok g)
    (hd : strptimeYMD s = some v) :
    update_pixel e q s ov t =
      ([(api_call "PUT"
          (PIXELA_ENDPOINT ++ "/" ++ e.username.getD "" ++ "/graphs/" ++ g ++ "/" ++ s)
          (HEADERS e) (some [("quantity", q)]) none t).1],
       match (api_call "PUT"
          (PIXELA_ENDPOINT ++ "/" ++ e.username.getD "" ++ "/graphs/" ++ g ++ "/" ++ s)
          (HEADERS e) (some [("quantity", q)]) none t).2 with
       | .ok r => .printed [r.text]
       | .error msg => .fatalExit msg) := by
  obtain ⟨y, mo, dy⟩ := v
  simp only [update_pixel, henv, hg, hd]
  split <;> rfl

theorem delete_pixel_eq (e : Env) (s : String) (ov : Option String)
    (t : Transport) {g : String} {v : Nat × Nat × Nat}
    (henv : require_env e ["USERNAME", "TOKEN", "GRAPH_ID"] = none)
    (hg : resolve_graph_id e ov = Except.ok g)
    (hd : strptimeYMD s = some v) :
    delete_pixel e s ov t =
      ([(api_call "DELETE"
          (PIXELA_ENDPOINT ++ "/" ++ e.username.getD "" ++ "/graphs/" ++ g ++ "/" ++ s)
          (HEADERS e) none none t).1],
       match (api_call "DELETE"
          (PIXELA_ENDPOINT ++ "/" ++ e.username.getD "" ++ "/graphs/" ++ g ++ "/" ++ s)
          (HEADERS e) none none t).2 with
       | .ok r => .printed [r.text]
       | .error msg => .fatalExit msg) := by
  obtain ⟨y, mo, dy⟩ := v
  simp only [delete_pixel, henv, hg, hd]
  split <;> rfl

theorem create_graph_eq (e : Env) (name unit gtype color : String)
    (ov : Option String) (t : Transport) {g : String}
    (henv : require_env e ["USERNAME", "TOKEN", "GRAPH_ID"] = none)
    (hg : resolve_graph_id e ov = Except.ok g) :
    create_graph e name unit gtype color ov t =
      ([(api_call "POST" (PIXELA_ENDPOINT ++ "/" ++ e.username.getD "" ++ "/graphs")
          (HEADERS e)
          (some [("id", g), ("name", name), ("unit", unit), ("type", gtype),
            ("color", color)]) none t).1],
       match (api_call "POST" (PIXELA_ENDPOINT ++ "/" ++ e.username.getD "" ++ "/graphs")
          (HEADERS e)
          (some [("id", g), ("name", name), ("unit", unit), ("type", gtype),
            ("color", color)]) none t).2 with
       | .ok r => .printed [r.text,
           "Graph URL: https://pixe.la/v1/users/" ++ e.username.getD "" ++ "/graphs/" ++
             g ++ ".html"]
       | .error msg => .fatalExit msg) := by
  simp only [create_graph, henv, hg]
  split <;> rfl

theorem create_user_eq (e : Env) (t : Transport)
    (henv : require_env e ["USERNAME", "TOKEN"] = none) :
    create_user e t =
      ([(api_call "POST" PIXELA_ENDPOINT []
          (some [("token", e.token.getD ""), ("username", e.username.getD ""),
            ("agreeTermsOfService", "yes"), ("notMinor", "yes")]) none t).1],
       match (api_call "POST" PIXELA_ENDPOINT []
          (some [("token", e.token.getD ""), ("username", e.username.getD ""),
            ("agreeTermsOfService", "yes"), ("notMinor", "yes")]) none t).2 with
       | .ok r => .printed [r.text]
       | .error msg => .fatalExit msg) := by
  simp only [create_user, henv]
  split <;> rfl

/-! ### Helper lemmas: the headers of every issued request -/

theorem add_pixel_req_headers (e : Env) (q : String) (ds ov : Option String)
    (now : Nat × Nat × Nat) (t : Transport) :
    ∀ req ∈ (add_pixel e q ds ov now t).1,
      req.headers = dictMerge USER_AGENT (HEADERS e) := by
  intro req hreq
  simp only [add_pixel] at hreq
  repeat' split at hreq
  all_goals simp_all [api_call_fst]

theorem update_pixel_req_headers (e : Env) (q s : String) (ov : Option String)
    (t : Transport) :
    ∀ req ∈ (update_pixel e q s ov t).1,
      req.headers = dictMerge USER_AGENT (HEADERS e) := by
  intro req hreq
  simp only [update_pixel] at hreq
  repeat' split at hreq
  all_goals simp_all [api_call_fst]

theorem delete_pixel_req_headers (e : Env) (s : String) (ov : Option String)
    (t : Transport) :
    ∀ req ∈ (delete_pixel e s ov t).1,
      req.headers = dictMerge USER_AGENT (HEADERS e) := by
  intro req hreq
  simp only [delete_pixel] at hreq
  repeat' split at hreq
  all_goals simp_all [api_call_fst]

theorem create_graph_req_headers (e : Env) (name unit gtype color : String)
    (ov : Option String) (t : Transport) :
    ∀ req ∈ (create_graph e name unit gtype color ov t).1,
      req.headers = dictMerge USER_AGENT (HEADERS e) := by
  intro req hreq
  simp only [create_graph] at hreq
  repeat' split at hreq
  all_goals simp_all [api_call_fst]

theorem create_user_req_shape (e : Env) (t : Transport) :
    ∀ req ∈ (create_user e t).1,
      req.headers = dictMerge USER_AGENT [] ∧
      req.jsonBody = some [("token", e.token.getD ""),
        ("username", e.username.getD ""), ("agreeTermsOfService", "yes"),
        ("notMinor", "yes")] := by
  intro req hreq
  simp only [create_user] at hreq
  repeat' split at hreq
  all_goals simp_all [api_call_fst]

/-! ### Claim C3 -/

/-- C3, counterexample.  The claim says that when both the override and the
environment default are absent, `resolve_graph_id` aborts fatally, and that
a provided override loses to the default only when blank after trimming.
Both parts fail on the code: with `GRAPH_ID` unset and no override the
function returns the built-in fallback "graph1" instead of aborting, and a
whitespace-only override aborts fatally even though a non-blank default
"g1" is available. -/
theorem claim_C3_counterexample :
    resolve_graph_id ⟨none, none, none⟩ none = Except.ok "graph1" ∧
    resolve_graph_id ⟨some "alice", some "tok", some "g1"⟩ (some " ") =
      Except.error gidRequiredMsg :=
  ⟨rfl, rfl⟩

/-- C3, amended.  `resolve_graph_id` returns the trimmed override whenever
the override is non-blank after trimming; when the override is `None` or
the empty string it falls back to the module-level default, which is the
`GRAPH_ID` environment variable or the literal "graph1" when that variable
is unset, aborting fatally iff that fallback is blank after trimming; a
non-empty whitespace-only override aborts fatally without consulting the
default; and when the variable is unset and the override is absent or
empty the result is "graph1", not an error. -/
theorem claim_C3_holds (e : Env) (ov : Option String) :
    (∀ s, ov = some s → pyStrip s ≠ "" → resolve_graph_id e ov = Except.ok (pyStrip s)) ∧
    ((ov = none ∨ ov = some "") →
      resolve_graph_id e ov =
        (if pyStrip (GRAPH_ID e) = "" then Except.error gidRequiredMsg
         else Except.ok (pyStrip (GRAPH_ID e)))) ∧
    (∀ s, ov = some s → s ≠ "" → pyStrip s = "" →
      resolve_graph_id e ov = Except.error gidRequiredMsg) ∧
    (e.graphIdEnv = none → (ov = none ∨ ov = some "") →
      resolve_graph_id e ov = Except.ok "graph1") := by
  have hdefault : ∀ h : (ov = none ∨ ov = some ""),
      resolve_graph_id e ov =
        (if pyStrip (GRAPH_ID e) = "" then Except.error gidRequiredMsg
         else Except.ok (pyStrip (GRAPH_ID e))) := by
    intro h
    have hstripnil : pyStrip "" = "" := rfl
    rcases h with rfl | rfl <;>
      (by_cases hb : GRAPH_ID e = "" <;> simp [resolve_graph_id, hb, hstripnil])
  refine ⟨?_, hdefault, ?_, ?_⟩
  · intro s hov hs
    subst hov
    have hs0 : s ≠ "" := by
      intro h0
      subst h0
      exact hs rfl
    simp [resolve_graph_id, hs0, hs]
  · intro s hov hs0 hstrip
    subst hov
    simp [resolve_graph_id, hs0, hstrip]
  · intro hG hov
    have hg1 : GRAPH_ID e = "graph1" := by simp [GRAPH_ID, hG]
    rw [hdefault hov, hg1]
    rfl

/-- C3, witness: a non-blank override "g2" wins over the default "g1". -/
theorem claim_C3_witness :
    resolve_graph_id ⟨none, none, some "g1"⟩ (some "g2") = Except.ok "g2" :=
  (claim_C3_holds ⟨none, none, some "g1"⟩ (some "g2")).1 "g2" rfl (by decide)

/-! ### Claim C4 -/

/-- C4.  `missingKeys` holds exactly the requested keys whose value is
unset or empty; when none are missing `require_env` passes, otherwise it
aborts with the single combined message listing exactly those keys; and an
operation whose `require_env` aborts issues no request at all (shown for
`create_user` and `add_pixel`, whose request lists are empty). -/
theorem claim_C4_holds (e : Env) (keys : List String) (t : Transport)
    (q : String) (ds ov : Option String) (now : Nat × Nat × Nat) :
    (∀ k, k ∈ missingKeys e keys ↔ k ∈ keys ∧ envTruthy (getenv e k) = false) ∧
    (missingKeys e keys = [] → require_env e keys = none) ∧
    (missingKeys e keys ≠ [] →
      require_env e keys = some (missingEnvMsg (missingKeys e keys))) ∧
    (∀ msg, require_env e ["USERNAME", "TOKEN"] = some msg →
      create_user e t = ([], .fatalExit msg)) ∧
    (∀ msg, require_env e ["USERNAME", "TOKEN", "GRAPH_ID"] = some msg →
      add_pixel e q ds ov now t = ([], .fatalExit msg)) := by
  refine ⟨?_, ?_, ?_, ?_, ?_⟩
  · intro k
    simp [missingKeys, List.mem_filter]
  · intro h
    simp [require_env, h]
  · intro h
    simp [require_env, h]
  · intro msg h
    simp [create_user, h]
  · intro msg h
    simp [add_pixel, h]

/-- C4, witness: with USERNAME unset and TOKEN empty, `create_user` aborts
with the message listing exactly USERNAME and TOKEN and sends nothing. -/
theorem claim_C4_witness :
    create_user ⟨none, some "", some "g1"⟩ (.netError "refused") =
      ([], .fatalExit (missingEnvMsg ["USERNAME", "TOKEN"])) :=
  (claim_C4_holds ⟨none, some "", some "g1"⟩ ["USERNAME", "TOKEN"]
    (.netError "refused") "1" none none (2025, 1, 1)).2.2.2.1
    (missingEnvMsg ["USERNAME", "TOKEN"]) rfl

/-! ### Claim C9 -/

/-- C9.  When the GRAPH_ID environment variable is unset, every
graph-scoped operation aborts with the missing-environment-variables
message (which names GRAPH_ID) even though a non-blank `--graph` override
was supplied, and no request is built: `require_env` inspects the raw
environment, not the override, and runs before `resolve_graph_id`. -/
theorem claim_C9_holds (e : Env) (ov : String) (_hov : ov ≠ "")
    (hG : e.graphIdEnv = none) (q s name unit gtype color : String)
    (ds : Option String) (now : Nat × Nat × Nat) (t : Transport) :
    "GRAPH_ID" ∈ missingKeys e ["USERNAME", "TOKEN", "GRAPH_ID"] ∧
    create_graph e name unit gtype color (some ov) t =
      ([], .fatalExit (missingEnvMsg (missingKeys e ["USERNAME", "TOKEN", "GRAPH_ID"]))) ∧
    add_pixel e q ds (some ov) now t =
      ([], .fatalExit (missingEnvMsg (missingKeys e ["USERNAME", "TOKEN", "GRAPH_ID"]))) ∧
    update_pixel e q s (some ov) t =
      ([], .fatalExit (missingEnvMsg (missingKeys e ["USERNAME", "TOKEN", "GRAPH_ID"]))) ∧
    delete_pixel e s (some ov) t =
      ([], .fatalExit (missingEnvMsg (missingKeys e ["USERNAME", "TOKEN", "GRAPH_ID"]))) := by
  have hmem : "GRAPH_ID" ∈ missingKeys e ["USERNAME", "TOKEN", "GRAPH_ID"] := by
    simp [missingKeys, List.mem_filter, getenv, hG, envTruthy]
  have hne : missingKeys e ["USERNAME", "TOKEN", "GRAPH_ID"] ≠ [] := by
    intro h
    rw [h] at hmem
    simp at hmem
  have hreq : require_env e ["USERNAME", "TOKEN", "GRAPH_ID"] =
      some (missingEnvMsg (missingKeys e ["USERNAME", "TOKEN", "GRAPH_ID"])) := by
    simp [require_env, hne]
  exact ⟨hmem, by simp [create_graph, hreq], by simp [add_pixel, hreq],
    by simp [update_pixel, hreq], by simp [delete_pixel, hreq]⟩

/-- C9, witness: USERNAME and TOKEN set, GRAPH_ID unset, override "g2"
supplied, yet `add_pixel` aborts naming GRAPH_ID and sends nothing. -/
theorem claim_C9_witness :
    "GRAPH_ID" ∈ missingKeys ⟨some "alice", some "tok", none⟩
      ["USERNAME", "TOKEN", "GRAPH_ID"] ∧
    add_pixel ⟨some "alice", some "tok", none⟩ "5" none (some "g2") (2025, 10, 21)
      (.ok ⟨200, "OK", "body", none⟩) =
      ([], .fatalExit (missingEnvMsg ["GRAPH_ID"])) := by
  have h := claim_C9_holds ⟨some "alice", some "tok", none⟩ "g2" (by decide) rfl
    "5" "20251021" "n" "u" "int" "sora" none (2025, 10, 21)
    (.ok ⟨200, "OK", "body", none⟩)
  exact ⟨h.1, h.2.2.1⟩

/-! ### Claim C1 -/

/-- C1, counterexample.  "2025101" is not an 8-digit string, yet the
`%Y%m%d` parse accepts it (month "10", day "1"), so `add_pixel` does not
abort: it sends a request whose body carries the normalized date
"20251001".  The claim that every wrong-length date string fails
validation with no request attempted is therefore false. -/
theorem claim_C1_counterexample :
    strptimeYMD "2025101" = some (2025, 10, 1) ∧
    "2025101".length = 7 ∧
    add_pixel ⟨some "alice", some "tok", some "g1"⟩ "5" (some "2025101") none
      (2025, 1, 2) (.ok ⟨200, "OK", "okbody", none⟩) =
      ([⟨"POST", "https://pixe.la/v1/users/alice/graphs/g1",
         [("User-Agent", "PixelaHabitTracker/1.0 (+github.com/DEX-01-CODER)"),
          ("X-USER-TOKEN", "tok")],
         some [("date", "20251001"), ("quantity", "5")], 15⟩],
       .printed ["okbody"]) :=
  ⟨rfl, rfl, rfl⟩

/-- C1, amended.  For every explicit date string the `%Y%m%d` parse
rejects, `update_pixel` and `delete_pixel` abort with the format-hint
message and issue no request, and so does `add_pixel` for every such
string except the empty one: `add` guards the parse with Python
truthiness (`if date_str:`), so an explicit empty date is treated exactly
like an absent date and a request dated today is sent.  The parse rejects
every string shorter than 6 or longer than 8 characters and every string
containing a non-digit, but (unlike the original claim) it accepts
certain 6- and 7-character strings with an unpadded month or day. -/
theorem claim_C1_holds (e : Env) (q s : String) (ov : Option String) (g : String)
    (now : Nat × Nat × Nat) (t : Transport)
    (henv : require_env e ["USERNAME", "TOKEN", "GRAPH_ID"] = none)
    (hg : resolve_graph_id e ov = Except.ok g) :
    (strptimeYMD s = none →
      (s ≠ "" → add_pixel e q (some s) ov now t = ([], .fatalExit dateFormatErrMsg)) ∧
      update_pixel e q s ov t = ([], .fatalExit dateFormatErrMsg) ∧
      delete_pixel e s ov t = ([], .fatalExit dateFormatErrMsg)) ∧
    add_pixel e q (some "") ov now t = add_pixel e q none ov now t ∧
    (s.length < 6 ∨ 8 < s.length ∨ (∃ c ∈ s.data, ¬ isDig c = true) →
      strptimeYMD s = none) := by
  refine ⟨?_, ?_, ?_⟩
  · intro hp
    exact ⟨fun hs0 => by simp [add_pixel, henv, hg, hp, hs0],
      by simp [update_pixel, henv, hg, hp],
      by simp [delete_pixel, henv, hg, hp]⟩
  · rfl
  · intro h
    by_contra hn
    obtain ⟨v, hv⟩ := Option.ne_none_iff_exists'.mp hn
    obtain ⟨h6, h8, hdig⟩ := strptimeYMD_sound hv
    rcases h with h | h | ⟨c, hc, hcd⟩
    · omega
    · omega
    · exact hcd (hdig c hc)

/-- C1, witness: "2025-1-1" has length 8 but contains non-digits, the
parse rejects it, and all three dated operations abort with the
format-hint message without issuing a request; an explicit empty date for
add behaves like an absent date. -/
theorem claim_C1_witness :
    strptimeYMD "2025-1-1" = none ∧
    add_pixel ⟨some "alice", some "tok", some "g1"⟩ "5" (some "2025-1-1") none
      (2025, 1, 2) (.ok ⟨200, "OK", "okbody", none⟩) =
      ([], .fatalExit dateFormatErrMsg) ∧
    update_pixel ⟨some "alice", some "tok", some "g1"⟩ "5" "2025-1-1" none
      (.ok ⟨200, "OK", "okbody", none⟩) = ([], .fatalExit dateFormatErrMsg) ∧
    delete_pixel ⟨some "alice", some "tok", some "g1"⟩ "2025-1-1" none
      (.ok ⟨200, "OK", "okbody", none⟩) = ([], .fatalExit dateFormatErrMsg) ∧
    add_pixel ⟨some "alice", some "tok", some "g1"⟩ "5" (some "") none
      (2025, 1, 2) (.ok ⟨200, "OK", "okbody", none⟩) =
      add_pixel ⟨some "alice", some "tok", some "g1"⟩ "5" none none
      (2025, 1, 2) (.ok ⟨200, "OK", "okbody", none⟩) := by
  have h := claim_C1_holds ⟨some "alice", some "tok", some "g1"⟩ "5" "2025-1-1"
    none "g1" (2025, 1, 2) (.ok ⟨200, "OK", "okbody", none⟩) rfl rfl
  have h1 := h.1 (by decide)
  exact ⟨by decide, h1.1 (by decide), h1.2.1, h1.2.2, h.2.1⟩

/-! ### Claim C2 -/

/-- C2, counterexample.  "09990101" is a valid 8-digit date string (year
999, January 1st) and validation succeeds, but `add` re-renders the parsed
date with `strftime`, whose `%Y` does not zero-pad: the request body
carries "9990101", not the input string.  The date is therefore not always
forwarded unchanged. -/
theorem claim_C2_counterexample :
    specValid8Date "09990101" = true ∧
    strptimeYMD "09990101" = some (999, 1, 1) ∧
    add_pixel ⟨some "alice", some "tok", some "g1"⟩ "5" (some "09990101") none
      (2025, 1, 2) (.ok ⟨200, "OK", "okbody", none⟩) =
      ([⟨"POST", "https://pixe.la/v1/users/alice/graphs/g1",
         [("User-Agent", "PixelaHabitTracker/1.0 (+github.com/DEX-01-CODER)"),
          ("X-USER-TOKEN", "tok")],
         some [("date", "9990101"), ("quantity", "5")], 15⟩],
       .printed ["okbody"]) ∧
    ("9990101" : String) ≠ "09990101" :=
  ⟨rfl, rfl, rfl, by decide⟩

/-- C2, amended.  For every valid 8-digit calendar date string, validation
succeeds; `update` and `delete` place the input string unchanged in the
URL path; `add` places the `strftime` re-rendering of the parsed date in
the JSON body, which equals the input string whenever the year is at
least 1000 (years below 1000 lose their leading zeros). -/
theorem claim_C2_holds (e : Env) (q s : String) (ov : Option String) (g : String)
    (now : Nat × Nat × Nat) (t : Transport)
    (hs : specValid8Date s = true)
    (henv : require_env e ["USERNAME", "TOKEN", "GRAPH_ID"] = none)
    (hg : resolve_graph_id e ov = Except.ok g) :
    ∃ y mo dy, strptimeYMD s = some (y, mo, dy) ∧
      (∃ req out, update_pixel e q s ov t = ([req], out) ∧
        req.url = PIXELA_ENDPOINT ++ "/" ++ e.username.getD "" ++ "/graphs/" ++
          g ++ "/" ++ s) ∧
      (∃ req out, delete_pixel e s ov t = ([req], out) ∧
        req.url = PIXELA_ENDPOINT ++ "/" ++ e.username.getD "" ++ "/graphs/" ++
          g ++ "/" ++ s) ∧
      (∃ req out, add_pixel e q (some s) ov now t = ([req], out) ∧
        req.jsonBody = some [("date", formatYMD y mo dy), ("quantity", q)]) ∧
      (1000 ≤ y → formatYMD y mo dy = s) := by
  obtain ⟨y, mo, dy, hp, hround⟩ := strptimeYMD_valid hs
  refine ⟨y, mo, dy, hp, ?_, ?_, ?_, hround⟩
  · rw [update_pixel_eq e q s ov t henv hg hp]
    exact ⟨_, _, rfl, by rw [api_call_fst]⟩
  · rw [delete_pixel_eq e s ov t henv hg hp]
    exact ⟨_, _, rfl, by rw [api_call_fst]⟩
  · rw [add_pixel_eq e q s ov now t henv hg hp]
    exact ⟨_, _, rfl, by rw [api_call_fst]⟩

/-- C2, witness: "20251021" parses, is forwarded unchanged in the update
and delete URLs, and the add body date equals the input. -/
theorem claim_C2_witness :
    specValid8Date "20251021" = true ∧
    (∃ y mo dy, strptimeYMD "20251021" = some (y, mo, dy) ∧
      (∃ req out, update_pixel ⟨some "alice", some "tok", some "g1"⟩ "5" "20251021"
          none (.ok ⟨200, "OK", "okbody", none⟩) = ([req], out) ∧
        req.url = PIXELA_ENDPOINT ++ "/" ++
          (Env.mk (some "alice") (some "tok") (some "g1")).username.getD "" ++
          "/graphs/" ++ "g1" ++ "/" ++ "20251021") ∧
      (∃ req out, delete_pixel ⟨some "alice", some "tok", some "g1"⟩ "20251021"
          none (.ok ⟨200, "OK", "okbody", none⟩) = ([req], out) ∧
        req.url = PIXELA_ENDPOINT ++ "/" ++
          (Env.mk (some "alice") (some "tok") (some "g1")).username.getD "" ++
          "/graphs/" ++ "g1" ++ "/" ++ "20251021") ∧
      (∃ req out, add_pixel ⟨some "alice", some "tok", some "g1"⟩ "5"
          (some "20251021") none (2025, 1, 2)
          (.ok ⟨200, "OK", "okbody", none⟩) = ([req], out) ∧
        req.jsonBody = some [("date", formatYMD y mo dy), ("quantity", "5")]) ∧
      (1000 ≤ y → formatYMD y mo dy = "20251021")) :=
  ⟨by decide, claim_C2_holds ⟨some "alice", some "tok", some "g1"⟩ "5" "20251021"
    none "g1" (2025, 1, 2) (.ok ⟨200, "OK", "okbody", none⟩) (by decide) rfl rfl⟩

/-! ### Claim C5 -/

/-- C5.  On an HTTP error status (400-599, the range `raise_for_status`
raises for), the operation issues exactly one request and aborts with the
message built from the status code and the extracted detail — the parsed
body rendering if the body parsed as JSON, else the raw text
(`r.jsonDetail.getD r.text`) — and that message contains the decimal
status code and the detail as substrings.  No retry exists: one transport
outcome yields one request. -/
theorem claim_C5_holds (e : Env) (q s : String) (ov : Option String) (g : String)
    (y mo dy : Nat) (now : Nat × Nat × Nat) (r : HttpResp)
    (henv : require_env e ["USERNAME", "TOKEN", "GRAPH_ID"] = none)
    (hg : resolve_graph_id e ov = Except.ok g)
    (hd : strptimeYMD s = some (y, mo, dy))
    (h4 : 400 ≤ r.status) (h6 : r.status < 600) :
    add_pixel e q (some s) ov now (.ok r) =
      ([⟨"POST", PIXELA_ENDPOINT ++ "/" ++ e.username.getD "" ++ "/graphs/" ++ g,
         dictMerge USER_AGENT (HEADERS e),
         some [("date", formatYMD y mo dy), ("quantity", q)], 15⟩],
       .fatalExit (httpErrorMsg r.status (r.jsonDetail.getD r.text) r.reason
         (PIXELA_ENDPOINT ++ "/" ++ e.username.getD "" ++ "/graphs/" ++ g))) ∧
    (∃ u v, httpErrorMsg r.status (r.jsonDetail.getD r.text) r.reason
        (PIXELA_ENDPOINT ++ "/" ++ e.username.getD "" ++ "/graphs/" ++ g) =
      u ++ toString r.status ++ v) ∧
    (∃ u v, httpErrorMsg r.status (r.jsonDetail.getD r.text) r.reason
        (PIXELA_ENDPOINT ++ "/" ++ e.username.getD "" ++ "/graphs/" ++ g) =
      u ++ (r.jsonDetail.getD r.text) ++ v) := by
  refine ⟨?_, ?_, ?_⟩
  · rw [add_pixel_eq e q s ov now (.ok r) henv hg hd, api_call_fst,
      api_call_snd_httpError "POST"
        (PIXELA_ENDPOINT ++ "/" ++ e.username.getD "" ++ "/graphs/" ++ g)
        (HEADERS e) (some [("date", formatYMD y mo dy), ("quantity", q)]) none h4 h6]
    rfl
  · exact ⟨"HTTP error ",
      ": " ++ (r.jsonDetail.getD r.text) ++ "\n" ++ httpErrorStr r.status r.reason
        (PIXELA_ENDPOINT ++ "/" ++ e.username.getD "" ++ "/graphs/" ++ g),
      by simp [httpErrorMsg, String.append_assoc]⟩
  · exact ⟨"HTTP error " ++ toString r.status ++ ": ",
      "\n" ++ httpErrorStr r.status r.reason
        (PIXELA_ENDPOINT ++ "/" ++ e.username.getD "" ++ "/graphs/" ++ g),
      by simp [httpErrorMsg, String.append_assoc]⟩

/-- C5, witness: a 400 response whose body parses to the detail rendering
of a structured body with message "bad request" aborts the add operation
with the combined message, after exactly one request. -/
theorem claim_C5_witness :
    add_pixel ⟨some "alice", some "tok", some "g1"⟩ "5" (some "20251021") none
      (2025, 1, 2)
      (.ok ⟨400, "Bad Request", "raw body",
        some "\x7b'message': 'bad request'\x7d"⟩) =
      ([⟨"POST", PIXELA_ENDPOINT ++ "/" ++
          (Env.mk (some "alice") (some "tok") (some "g1")).username.getD "" ++
          "/graphs/" ++ "g1",
         dictMerge USER_AGENT (HEADERS ⟨some "alice", some "tok", some "g1"⟩),
         some [("date", formatYMD 2025 10 21), ("quantity", "5")], 15⟩],
       .fatalExit (httpErrorMsg 400 "\x7b'message': 'bad request'\x7d" "Bad Request"
         (PIXELA_ENDPOINT ++ "/" ++
           (Env.mk (some "alice") (some "tok") (some "g1")).username.getD "" ++
           "/graphs/" ++ "g1"))) :=
  (claim_C5_holds ⟨some "alice", some "tok", some "g1"⟩ "5" "20251021" none "g1"
    2025 10 21 (2025, 1, 2)
    ⟨400, "Bad Request", "raw body", some "\x7b'message': 'bad request'\x7d"⟩
    rfl rfl (by decide) (by decide) (by decide)).1

/-! ### Claim C6 -/

/-- C6.  On a transport-level failure (no response at all) the gateway
returns no response to any caller — its outcome is the error "Network
error: " followed by the transport description, for every method, URL,
headers, body and timeout — and the add operation aborts with exactly that
message after the single request attempt, with no retry. -/
theorem claim_C6_holds (e : Env) (q s : String) (ov : Option String) (g : String)
    (y mo dy : Nat) (now : Nat × Nat × Nat) (desc : String)
    (henv : require_env e ["USERNAME", "TOKEN", "GRAPH_ID"] = none)
    (hg : resolve_graph_id e ov = Except.ok g)
    (hd : strptimeYMD s = some (y, mo, dy)) :
    (∀ (m u : String) (hs : List (String × String))
        (b : Option (List (String × String))) (tA : Option Nat),
      (api_call m u hs b tA (.netError desc)).2 =
        .error ("Network error: " ++ desc)) ∧
    add_pixel e q (some s) ov now (.netError desc) =
      ([⟨"POST", PIXELA_ENDPOINT ++ "/" ++ e.username.getD "" ++ "/graphs/" ++ g,
         dictMerge USER_AGENT (HEADERS e),
         some [("date", formatYMD y mo dy), ("quantity", q)], 15⟩],
       .fatalExit ("Network error: " ++ desc)) := by
  refine ⟨fun m u hs b tA => rfl, ?_⟩
  rw [add_pixel_eq e q s ov now (.netError desc) henv hg hd, api_call_fst]
  rfl

/-- C6, witness: a connection-refused transport failure aborts the add
operation with the network-error message. -/
theorem claim_C6_witness :
    add_pixel ⟨some "alice", some "tok", some "g1"⟩ "5" (some "20251021") none
      (2025, 1, 2) (.netError "connection refused") =
      ([⟨"POST", PIXELA_ENDPOINT ++ "/" ++
          (Env.mk (some "alice") (some "tok") (some "g1")).username.getD "" ++
          "/graphs/" ++ "g1",
         dictMerge USER_AGENT (HEADERS ⟨some "alice", some "tok", some "g1"⟩),
         some [("date", formatYMD 2025 10 21), ("quantity", "5")], 15⟩],
       .fatalExit ("Network error: " ++ "connection refused")) :=
  (claim_C6_holds ⟨some "alice", some "tok", some "g1"⟩ "5" "20251021" none "g1"
    2025 10 21 (2025, 1, 2) "connection refused" rfl rfl (by decide)).2

/-! ### Claim C7 -/

/-- C7.  Every request the gateway issues carries the fixed identifying
User-Agent header unless the caller explicitly supplies that same key, in
which case the caller value wins; all other caller headers pass through
unchanged; and the timeout is the one the caller supplied, else the fixed
15. -/
theorem claim_C7_holds (m u : String) (hs : List (String × String))
    (b : Option (List (String × String))) (tA : Option Nat) (t : Transport) :
    (lookupKey "User-Agent" hs = none →
      lookupKey "User-Agent" (api_call m u hs b tA t).1.headers =
        some "PixelaHabitTracker/1.0 (+github.com/DEX-01-CODER)") ∧
    (∀ v, lookupKey "User-Agent" hs = some v →
      lookupKey "User-Agent" (api_call m u hs b tA t).1.headers = some v) ∧
    (∀ k, k ≠ "User-Agent" →
      lookupKey k (api_call m u hs b tA t).1.headers = lookupKey k hs) ∧
    (api_call m u hs b tA t).1.timeout = tA.getD 15 ∧
    (tA = none → (api_call m u hs b tA t).1.timeout = 15) := by
  have hua : USER_AGENT =
      [("User-Agent", "PixelaHabitTracker/1.0 (+github.com/DEX-01-CODER)")] := rfl
  refine ⟨?_, ?_, ?_, ?_, ?_⟩
  · intro h
    rw [api_call_fst]
    show lookupKey "User-Agent" (dictMerge USER_AGENT hs) = _
    rw [hua, lookupKey_dictMerge_single, h]
    rfl
  · intro v h
    rw [api_call_fst]
    show lookupKey "User-Agent" (dictMerge USER_AGENT hs) = _
    rw [hua, lookupKey_dictMerge_single, h]
  · intro k hk
    rw [api_call_fst]
    show lookupKey k (dictMerge USER_AGENT hs) = _
    rw [hua, lookupKey_dictMerge_single]
    cases h : lookupKey k hs with
    | some v => rfl
    | none => simp [lookupKey_cons, lookupKey_nil, Ne.symm hk]
  · rw [api_call_fst]
    rfl
  · intro h
    subst h
    rw [api_call_fst]
    rfl

/-- C7, witness: with no caller headers and no caller timeout, the request
carries the identifying header and the 15-unit timeout; a caller-supplied
User-Agent replaces it. -/
theorem claim_C7_witness :
    lookupKey "User-Agent"
      (api_call "GET" "https://example" [] none none (.netError "x")).1.headers =
        some "PixelaHabitTracker/1.0 (+github.com/DEX-01-CODER)" ∧
    lookupKey "User-Agent"
      (api_call "GET" "https://example" [("User-Agent", "custom")] none none
        (.netError "x")).1.headers = some "custom" ∧
    (api_call "GET" "https://example" [] none none (.netError "x")).1.timeout = 15 :=
  ⟨(claim_C7_holds "GET" "https://example" [] none none (.netError "x")).1 rfl,
   (claim_C7_holds "GET" "https://example" [("User-Agent", "custom")] none none
     (.netError "x")).2.1 "custom" rfl,
   (claim_C7_holds "GET" "https://example" [] none none (.netError "x")).2.2.2.2 rfl⟩

/-! ### Claim C8 -/

/-- C8.  With config resolved and a success response, `add` with no
explicit date issues a single POST to `/users/account/graphs/graphId`
whose JSON body has exactly the keys date and quantity, the date being the
current date rendered in year-month-day form, and prints the response body
verbatim. -/
theorem claim_C8_holds (e : Env) (q : String) (ov : Option String) (g : String)
    (now : Nat × Nat × Nat) (r : HttpResp)
    (henv : require_env e ["USERNAME", "TOKEN", "GRAPH_ID"] = none)
    (hg : resolve_graph_id e ov = Except.ok g)
    (hok : ¬(400 ≤ r.status ∧ r.status < 600)) :
    add_pixel e q none ov now (.ok r) =
      ([⟨"POST", PIXELA_ENDPOINT ++ "/" ++ e.username.getD "" ++ "/graphs/" ++ g,
         dictMerge USER_AGENT (HEADERS e),
         some [("date", formatYMD now.1 now.2.1 now.2.2), ("quantity", q)], 15⟩],
       .printed [r.text]) := by
  rw [add_pixel_today_eq e q ov now (.ok r) henv hg, api_call_fst,
    api_call_snd_ok "POST"
      (PIXELA_ENDPOINT ++ "/" ++ e.username.getD "" ++ "/graphs/" ++ g)
      (HEADERS e) (some [("date", formatYMD now.1 now.2.1 now.2.2), ("quantity", q)])
      none hok]
  rfl

/-- C8, witness: on 2025-10-21 with a 200 response, add with no date POSTs
body date "20251021" and quantity "5" and prints the response body. -/
theorem claim_C8_witness :
    add_pixel ⟨some "alice", some "tok", some "g1"⟩ "5" none none (2025, 10, 21)
      (.ok ⟨200, "OK", "okbody", none⟩) =
      ([⟨"POST", PIXELA_ENDPOINT ++ "/" ++
          (Env.mk (some "alice") (some "tok") (some "g1")).username.getD "" ++
          "/graphs/" ++ "g1",
         dictMerge USER_AGENT (HEADERS ⟨some "alice", some "tok", some "g1"⟩),
         some [("date", formatYMD 2025 10 21), ("quantity", "5")], 15⟩],
       .printed ["okbody"]) :=
  claim_C8_holds ⟨some "alice", some "tok", some "g1"⟩ "5" none "g1"
    (2025, 10, 21) ⟨200, "OK", "okbody", none⟩ rfl rfl (by decide)

/-! ### Claim C10 -/

/-- C10.  When TOKEN is set non-empty at startup, every request issued by
create-graph, add, update or delete carries the header X-USER-TOKEN with
that token; create-user sends no X-USER-TOKEN header and instead carries
the token in the JSON body under the key token. -/
theorem claim_C10_holds (e : Env) (tok : String)
    (htok : e.token = some tok) (hne : tok ≠ "")
    (q name unit gtype color dstr : String) (ds ov : Option String)
    (now : Nat × Nat × Nat) (t : Transport) :
    (∀ req ∈ (create_graph e name unit gtype color ov t).1,
      lookupKey "X-USER-TOKEN" req.headers = some tok) ∧
    (∀ req ∈ (add_pixel e q ds ov now t).1,
      lookupKey "X-USER-TOKEN" req.headers = some tok) ∧
    (∀ req ∈ (update_pixel e q dstr ov t).1,
      lookupKey "X-USER-TOKEN" req.headers = some tok) ∧
    (∀ req ∈ (delete_pixel e dstr ov t).1,
      lookupKey "X-USER-TOKEN" req.headers = some tok) ∧
    (∀ req ∈ (create_user e t).1,
      lookupKey "X-USER-TOKEN" req.headers = none ∧
      lookupKey "token" (req.jsonBody.getD []) = some tok) := by
  have hH : HEADERS e = [("X-USER-TOKEN", tok)] := by
    simp [HEADERS, htok, envTruthy, hne]
  have hua : USER_AGENT =
      [("User-Agent", "PixelaHabitTracker/1.0 (+github.com/DEX-01-CODER)")] := rfl
  have hlook : lookupKey "X-USER-TOKEN" (dictMerge USER_AGENT (HEADERS e)) =
      some tok := by
    rw [hH, hua, lookupKey_dictMerge_single]
    simp [lookupKey_cons]
  refine ⟨?_, ?_, ?_, ?_, ?_⟩
  · intro req hreq
    rw [create_graph_req_headers e name unit gtype color ov t req hreq]
    exact hlook
  · intro req hreq
    rw [add_pixel_req_headers e q ds ov now t req hreq]
    exact hlook
  · intro req hreq
    rw [update_pixel_req_headers e q dstr ov t req hreq]
    exact hlook
  · intro req hreq
    rw [delete_pixel_req_headers e dstr ov t req hreq]
    exact hlook
  · intro req hreq
    obtain ⟨hh, hb⟩ := create_user_req_shape e t req hreq
    constructor
    · rw [hh]
      rfl
    · rw [hb]
      simp [htok, lookupKey_cons]

/-- C10, witness: with TOKEN "tok", the delete request carries
X-USER-TOKEN "tok", while the create-user request has no such header and
carries the token in its body. -/
theorem claim_C10_witness :
    lookupKey "X-USER-TOKEN"
      (Request.mk "DELETE" "https://pixe.la/v1/users/alice/graphs/g1/20251021"
        [("User-Agent", "PixelaHabitTracker/1.0 (+github.com/DEX-01-CODER)"),
         ("X-USER-TOKEN", "tok")] none 15).headers = some "tok" ∧
    lookupKey "X-USER-TOKEN"
      (Request.mk "POST" "https://pixe.la/v1/users"
        [("User-Agent", "PixelaHabitTracker/1.0 (+github.com/DEX-01-CODER)")]
        (some [("token", "tok"), ("username", "alice"),
          ("agreeTermsOfService", "yes"), ("notMinor", "yes")]) 15).headers = none ∧
    lookupKey "token"
      ((Request.mk "POST" "https://pixe.la/v1/users"
        [("User-Agent", "PixelaHabitTracker/1.0 (+github.com/DEX-01-CODER)")]
        (some [("token", "tok"), ("username", "alice"),
          ("agreeTermsOfService", "yes"), ("notMinor", "yes")]) 15).jsonBody.getD []) =
      some "tok" := by
  have h := claim_C10_holds ⟨some "alice", some "tok", some "g1"⟩ "tok" rfl
    (by decide) "5" "n" "u" "int" "sora" "20251021" none none (2025, 1, 1)
    (.ok ⟨200, "OK", "body", none⟩)
  have hdel := h.2.2.2.1 _ (List.Mem.head _)
  have hcu := h.2.2.2.2 _ (List.Mem.head _)
  exact ⟨hdel, hcu.1, hcu.2⟩

end HabitTracker
